import Mathlib

/-!
Verification of the rust-s3 request execution pipeline against its
specification.  The Rust sources are embedded shallowly: pure functions
become Lean functions, the hand-rolled suspension state machine of
src/async.rs becomes a step function on an explicit state type, and the
interaction with the transport (the boxed response future and the body
chunk decoder) is modelled by data stored inside the corresponding state
constructors, exactly where the source keeps the corresponding handles.
Machine integers are Nat with explicit reduction modulo two to the 32 where
overflow matters.  External XML deserialization (the serde_xml crate) is a
parameter: the machine behaviour is parametric in the parser function.
-/

namespace RustS3

/-! ## Bytes and lossy UTF-8 decoding

Model of the Rust standard library function String::from_utf8_lossy used in
src/async.rs line 66 and src/bucket.rs line 187: decode UTF-8, replacing
invalid sequences with the replacement character U+FFFD. -/

/-- The replacement character U+FFFD. -/
def replChar : Char := Char.ofNat 0xFFFD

/-- Is a byte a UTF-8 continuation byte (0b10xxxxxx)? -/
def isCont (b : Nat) : Bool := 0x80 ≤ b && b < 0xC0

/-- Decode a UTF-8 byte list to characters, invalid sequences becoming the
replacement character; fuel bounds the recursion depth and one unit of fuel
is spent per decoded scalar, so fuel equal to the list length always
suffices.  Model of the decoding underlying String::from_utf8_lossy. -/
def utf8DecodeAux : Nat → List Nat → List Char
  | 0, _ => []
  | _ + 1, [] => []
  | fuel + 1, b :: rest =>
    if b < 0x80 then Char.ofNat b :: utf8DecodeAux fuel rest
    else if b < 0xC2 then replChar :: utf8DecodeAux fuel rest
    else if b < 0xE0 then
      match rest with
      | b2 :: r2 =>
        if isCont b2 then
          Char.ofNat ((b % 0x20) * 0x40 + (b2 % 0x40)) :: utf8DecodeAux fuel r2
        else replChar :: utf8DecodeAux fuel rest
      | [] => [replChar]
    else if b < 0xF0 then
      match rest with
      | b2 :: b3 :: r3 =>
        if isCont b2 && isCont b3 then
          let v := (b % 0x10) * 0x1000 + (b2 % 0x40) * 0x40 + (b3 % 0x40)
          if v < 0x800 || (0xD800 ≤ v && v < 0xE000) then replChar :: utf8DecodeAux fuel r3
          else Char.ofNat v :: utf8DecodeAux fuel r3
        else replChar :: utf8DecodeAux fuel rest
      | _ => [replChar]
    else if b < 0xF5 then
      match rest with
      | b2 :: b3 :: b4 :: r4 =>
        if isCont b2 && isCont b3 && isCont b4 then
          let v := (b % 0x8) * 0x40000 + (b2 % 0x40) * 0x1000 + (b3 % 0x40) * 0x40 + (b4 % 0x40)
          if v < 0x10000 || 0x110000 ≤ v then replChar :: utf8DecodeAux fuel r4
          else Char.ofNat v :: utf8DecodeAux fuel r4
        else replChar :: utf8DecodeAux fuel rest
      | _ => [replChar]
    else replChar :: utf8DecodeAux fuel rest

/-- Model of String::from_utf8_lossy on a byte list. -/
def fromUtf8Lossy (bytes : List Nat) : String :=
  String.mk (utf8DecodeAux bytes.length bytes)

/-! ## Error model

The error enum of the crate (src/error.rs, an error-chain generated type)
is not under src/.  Modelled from the spec: section 7 gives the taxonomy
TransportError, ServiceError, MalformedErrorBody, SigningInputError,
EncodingError; src/async.rs lines 62 to 67 show the ServiceError variant
under its source name AwsError with fields info, status and body, the
transport variant originating from reqwest errors, and the XML parse
failure variant originating from serde_xml errors. -/

/-- Structured service error payload deserialized from the error body XML.
Modelled from the spec: serde_types.rs is not under src/; section 6 of the
spec gives the schema as a record with code and message fields. -/
structure AwsError where
  code : String
  message : String
deriving DecidableEq, Repr

/-- Modelled from the spec: the tagged error union of section 7, with the
constructor AwsError carrying the fields used at src/async.rs lines 63 to
67, reqwestErr the transport failure, serdeXml the XML parse failure, and
encodingError the EncodingError kind of section 7. -/
inductive S3Error where
  | reqwestErr (e : String)
  | awsError (info : AwsError) (status : Nat) (body : String)
  | serdeXml (e : String)
  | encodingError (e : String)
deriving DecidableEq, Repr

/-! ## The suspension state machine of src/async.rs -/

/-- One event produced by the body chunk decoder when polled: a data chunk,
a not-ready suspension, or a transport error.  The end of the event list
models the decoder reporting end of stream (Ready None). -/
inductive ChunkEvent where
  | chunk (c : List Nat)
  | cnotReady
  | cerr (e : String)
deriving DecidableEq, Repr

/-- An HTTP response as delivered by the transport: the status code and the
behaviour of its body decoder (the sequence of events the decoder will
produce). -/
structure HttpResponse where
  status : Nat
  body : List ChunkEvent
deriving DecidableEq, Repr

instance {ε α : Type} [DecidableEq ε] [DecidableEq α] : DecidableEq (Except ε α) :=
  fun x y =>
    match x, y with
    | Except.ok a, Except.ok b =>
        if h : a = b then isTrue (by rw [h]) else isFalse (by simp [h])
    | Except.error a, Except.error b =>
        if h : a = b then isTrue (by rw [h]) else isFalse (by simp [h])
    | Except.ok _, Except.error _ => isFalse (by simp)
    | Except.error _, Except.ok _ => isFalse (by simp)

/-- The states of S3ResponseFuture (src/async.rs lines 21 to 27).  The
Pending variant holds the boxed in-flight response future, modelled by its
behaviour: a number of not-ready polls followed by a response or a
transport error.  The ParseError variant holds the accumulated buffer, the
body decoder (modelled by its remaining event sequence) and the status
code, exactly the fields of the source variant. -/
inductive FutState where
  | pending (delays : Nat) (result : Except String HttpResponse)
  | parseError (buffer : List Nat) (decoder : List ChunkEvent) (status : Nat)
  | doneSt
  | noneSt
deriving DecidableEq, Repr

/-- The result of one call to poll: Ok(Async::Ready(S3Response)) carrying
the response, Ok(Async::NotReady), Err of the error type, or a panic (the
two panic arms at src/async.rs lines 78 and 79). -/
inductive PollResult where
  | ready (r : HttpResponse)
  | notReady
  | errR (e : S3Error)
  | panicked (msg : String)
deriving DecidableEq, Repr

/-- The inner loop of poll while in the ParseError state (src/async.rs
lines 55 to 77): poll the decoder; a chunk is appended to the buffer and
the loop continues; not-ready restores the state and suspends; end of
stream parses the buffer, a successful parse setting the state to Done and
returning the AwsError outcome with the lossily decoded body, a parse
failure propagating the serde error through the question-mark operator
(the state stays at the None placeholder left by mem::replace); a decoder
error likewise propagates with the state left at None. -/
def pollError (parse : List Nat → Except String AwsError) :
    List Nat → List ChunkEvent → Nat → FutState × PollResult
  | buffer, ChunkEvent.chunk c :: rest, status =>
      pollError parse (buffer ++ c) rest status
  | buffer, ChunkEvent.cnotReady :: rest, status =>
      (FutState.parseError buffer rest status, PollResult.notReady)
  | _buffer, ChunkEvent.cerr e :: _, _status =>
      (FutState.noneSt, PollResult.errR (S3Error.reqwestErr e))
  | buffer, [], status =>
      match parse buffer with
      | Except.ok deserialized =>
          (FutState.doneSt,
           PollResult.errR (S3Error.awsError deserialized status (fromUtf8Lossy buffer)))
      | Except.error m => (FutState.noneSt, PollResult.errR (S3Error.serdeXml m))

/-- One call to S3ResponseFuture::poll (src/async.rs lines 33 to 82).  The
function first takes the state out with mem::replace, leaving the None
placeholder, and then loops: in Pending, a ready response with status
below 300 sets Done and yields the response; status at least 300 moves to
ParseError with an empty buffer and the response body decoder, and the
loop continues into the decoder immediately; not-ready restores Pending; a
transport error propagates with the state left at None.  The Done and None
arms panic. -/
def poll (parse : List Nat → Except String AwsError) :
    FutState → FutState × PollResult
  | FutState.pending (delays + 1) result =>
      (FutState.pending delays result, PollResult.notReady)
  | FutState.pending 0 (Except.error e) =>
      (FutState.noneSt, PollResult.errR (S3Error.reqwestErr e))
  | FutState.pending 0 (Except.ok response) =>
      if response.status < 300 then (FutState.doneSt, PollResult.ready response)
      else pollError parse [] response.body response.status
  | FutState.parseError buffer decoder status => pollError parse buffer decoder status
  | FutState.doneSt => (FutState.noneSt, PollResult.panicked "S3ResponseFuture used after Ready")
  | FutState.noneSt => (FutState.noneSt, PollResult.panicked "S3ResponseFuture is None")

/-- Repeatedly poll the machine until it returns something other than
not-ready, with fuel bounding the number of poll calls; exhausted fuel
reports not-ready. -/
def drive (parse : List Nat → Except String AwsError) :
    FutState → Nat → PollResult
  | _, 0 => PollResult.notReady
  | s, fuel + 1 =>
      match poll parse s with
      | (s2, PollResult.notReady) => drive parse s2 fuel
      | (_, r) => r

/-- The command variants (command.rs is not under src/; the variants and
their payloads are those constructed in src/bucket.rs lines 110, 136, 167
and 180). -/
inductive Command where
  | get
  | delete
  | put (content : List Nat) (content_type : String)
  | list (pfx : String) (delimiter : Option String) (continuation_token : Option String)
deriving DecidableEq, Repr

/-- The behaviour of the boxed response future returned by request.send():
a number of not-ready polls, then a response or a transport error. -/
structure Transport where
  delays : Nat
  result : Except String HttpResponse
deriving DecidableEq, Repr

/-- Request::execute_async (src/async.rs lines 93 to 120) on its success
path: whatever the command, the returned future is
S3ResponseFuture::Pending holding the in-flight send. -/
def execute_async (_command : Command) (t : Transport) : FutState :=
  FutState.pending t.delays t.result

/-- The bytes carried by the chunk events of a decoder event sequence, in
arrival order. -/
def chunkData : List ChunkEvent → List Nat
  | [] => []
  | ChunkEvent.chunk c :: rest => c ++ chunkData rest
  | _ :: rest => chunkData rest

/-- The number of not-ready suspensions in a decoder event sequence. -/
def countNotReady : List ChunkEvent → Nat
  | [] => 0
  | ChunkEvent.cnotReady :: rest => countNotReady rest + 1
  | _ :: rest => countNotReady rest

/-- True when the decoder event sequence contains no transport error. -/
def cleanEvents : List ChunkEvent → Bool
  | [] => true
  | ChunkEvent.cerr _ :: _ => false
  | _ :: rest => cleanEvents rest

/-- Modelled from the spec: the blocking execution mode
(Request::execute in request.rs, not under src/).  Spec section 4.5: the
blocking form waits for the full response and inspects the status; below
300 it returns the body and status, otherwise it reads the full body and
parses it as the service error schema; spec section 8 requires it to yield
the same Outcome as the suspension mode for the same byte stream, so the
error values take the same shape as the suspension-mode ones. -/
def blockingClassify (parse : List Nat → Except String AwsError)
    (status : Nat) (body : List Nat) : Except S3Error (List Nat × Nat) :=
  if status < 300 then Except.ok (body, status)
  else
    match parse body with
    | Except.ok info => Except.error (S3Error.awsError info status (fromUtf8Lossy body))
    | Except.error m => Except.error (S3Error.serdeXml m)

/-! ## Bucket listing (src/bucket.rs) -/

/-- Modelled from the spec: the deserialized list page (serde_types.rs is
not under src/).  Spec sections 3 and the glossary give it a continuation
token (an opaque cursor, absent on the last page) and the contents used by
the examples of src/lib.rs: a list of object keys. -/
structure ListBucketResult where
  next_continuation_token : Option String
  contents : List String
deriving DecidableEq, Repr

/-- Bucket::_list (src/bucket.rs lines 175 to 190) after the request has
executed: the executed response bytes and status are decoded with
String::from_utf8_lossy and deserialized as a ListBucketResult; the
network execution and the XML deserializer (the serde_xml crate) enter as
arguments. -/
def listPage (executed : Except S3Error (List Nat × Nat))
    (deserializeList : String → Except String ListBucketResult) :
    Except S3Error (ListBucketResult × Nat) :=
  match executed with
  | Except.error e => Except.error e
  | Except.ok result =>
      let result_string := fromUtf8Lossy result.1
      match deserializeList result_string with
      | Except.error e => Except.error (S3Error.serdeXml e)
      | Except.ok deserialized => Except.ok (deserialized, result.2)

/-- The loop body of Bucket::list (src/bucket.rs lines 223 to 229),
instrumented with the trace of the continuation tokens passed to the
follow-up page requests.  The server argument is the oracle for the _list
collaborator: it maps a continuation token to the page the service
returns.  Fuel bounds the number of iterations; exhausted fuel reports
none. -/
def listLoop (server : Option String → Except S3Error (ListBucketResult × Nat)) :
    (ListBucketResult × Nat) → Nat →
    Option (Except S3Error (List (ListBucketResult × Nat) × List (Option String)))
  | _, 0 => none
  | result, fuel + 1 =>
      match result.1.next_continuation_token with
      | none => some (Except.ok ([result], []))
      | some token =>
          match server (some token) with
          | Except.error e => some (Except.error e)
          | Except.ok next =>
              (listLoop server next fuel).map
                (Except.map (fun p => (result :: p.1, some token :: p.2)))

/-- Bucket::list (src/bucket.rs lines 220 to 232), instrumented with the
trace of the continuation tokens of all requests issued: the first request
carries no token, then the loop pushes each page and reissues with the
token of the page just received until a page omits the token. -/
def list (server : Option String → Except S3Error (ListBucketResult × Nat)) (fuel : Nat) :
    Option (Except S3Error (List (ListBucketResult × Nat) × List (Option String))) :=
  match server none with
  | Except.error e => some (Except.error e)
  | Except.ok first =>
      (listLoop server first fuel).map (Except.map (fun p => (p.1, none :: p.2)))

/-- The server serves, starting from a given first page, exactly the given
page sequence: every page before the last carries a continuation token
under which the server returns the next page, and the last page omits the
token. -/
inductive Chain (server : Option String → Except S3Error (ListBucketResult × Nat)) :
    (ListBucketResult × Nat) → List (ListBucketResult × Nat) → Prop where
  | last (r : ListBucketResult × Nat) (h : r.1.next_continuation_token = none) :
      Chain server r [r]
  | step (r : ListBucketResult × Nat) (t : String) (r2 : ListBucketResult × Nat)
      (rest : List (ListBucketResult × Nat))
      (h : r.1.next_continuation_token = some t)
      (hs : server (some t) = Except.ok r2)
      (hc : Chain server r2 rest) :
      Chain server r (r :: rest)

/-! ## Credentials (src/credentials.rs) -/

/-- The credentials record (src/credentials.rs lines 52 to 60); the
private unit field is dropped. -/
structure Credentials where
  access_key : String
  secret_key : String
  token : Option String
deriving DecidableEq, Repr

/-- The process environment as seen by Credentials::from_env: the values,
if set, of AWS_ACCESS_KEY_ID, AWS_SECRET_ACCESS_KEY and
AWS_SESSION_TOKEN. -/
structure EnvMap where
  accessKeyId : Option String
  secretAccessKey : Option String
  sessionToken : Option String
deriving DecidableEq, Repr

/-- std::env::var: a set variable yields its value, an unset one an
error. -/
def env_var : Option String → Except String String
  | some x => Except.ok x
  | none => Except.error "environment variable not found"

/-- Credentials::from_env (src/credentials.rs lines 104 to 112). -/
def from_env (env : EnvMap) : Except String Credentials := do
  let access_key ← env_var env.accessKeyId
  let secret_key ← env_var env.secretAccessKey
  let token := match env_var env.sessionToken with
    | Except.ok x => some x
    | Except.error _ => none
  pure { access_key := access_key, secret_key := secret_key, token := token }

/-- The filesystem as seen by Credentials::from_profile: the home
directory, if any, and the parsed content of the AWS credentials ini file
(a list of sections, each a list of key-value pairs), or the load
error. -/
structure ProfileFs where
  home_dir : Option String
  iniFile : Except String (List (String × List (String × String)))
deriving DecidableEq, Repr

/-- Credentials::from_profile (src/credentials.rs lines 114 to 138). -/
def from_profile (fs : ProfileFs) (sectionName : Option String) : Except String Credentials :=
  match fs.home_dir with
  | none => Except.error "Impossible to get your home dir!"
  | some _ =>
      match fs.iniFile with
      | Except.error e => Except.error e
      | Except.ok conf =>
          let sec := match sectionName with
            | some s => s
            | none => "default"
          match conf.lookup sec with
          | none => Except.error "Section not found in profile file"
          | some data =>
              match data.lookup "aws_access_key_id" with
              | none => Except.error "Missing aws_access_key_id in profile file"
              | some access_key =>
                  match data.lookup "aws_secret_access_key" with
                  | none => Except.error "Missing aws_secret_access_key in profile file"
                  | some secret_key =>
                      Except.ok { access_key := access_key, secret_key := secret_key,
                                  token := none }

/-- The result of a constructor that panics on failure instead of
returning an error value. -/
inductive NewResult where
  | ok (c : Credentials)
  | panicked (msg : String)
deriving DecidableEq, Repr

/-- Credentials::new (src/credentials.rs lines 65 to 102): the argument
credentials are used only when both access_key and secret_key are Some;
otherwise resolution falls back to the environment, then the profile file,
and panics when every source fails. -/
def Credentials.new (access_key secret_key token profile : Option String)
    (env : EnvMap) (fs : ProfileFs) : NewResult :=
  let credentials : Option Credentials :=
    match access_key with
    | some key =>
        match secret_key with
        | some secret =>
            match token with
            | some t => some { access_key := key, secret_key := secret, token := some t }
            | none => some { access_key := key, secret_key := secret, token := none }
        | none => none
    | none => none
  match credentials with
  | some c => NewResult.ok c
  | none =>
      match from_env env with
      | Except.ok c => NewResult.ok c
      | Except.error _ =>
          match from_profile fs profile with
          | Except.ok c => NewResult.ok c
          | Except.error e =>
              NewResult.panicked
                ("No credentials provided as arguments, in the environment or in the profile file. \n " ++ e)

/-! ## Bucket (src/bucket.rs) -/

/-- Modelled from the spec: the region value (region.rs is not under
src/).  Spec section 3: an immutable tag with derived host, scheme and
signing region. -/
structure Region where
  host : String
  scheme : String
  signing_region : String
deriving DecidableEq, Repr

/-- Header map, modelled as an association list. -/
abbrev Headers := List (String × String)

/-- Query parameter map, modelled as an association list. -/
abbrev Query := List (String × String)

/-- The HTTP client handle built by build_client (src/bucket.rs lines 45
to 54), characterised by its TLS verification configuration. -/
structure Client where
  accept_invalid_certs : Bool
deriving DecidableEq, Repr

/-- The Bucket record (src/bucket.rs lines 35 to 43). -/
structure Bucket where
  name : String
  region : Region
  credentials : Credentials
  extra_headers : Headers
  extra_query : Query
  client : Client
deriving DecidableEq, Repr

/-- Bucket::set_credentials (src/bucket.rs lines 276 to 278):
mem::replace swaps the new credentials in and returns the previously
stored ones.  The mutation of the receiver is made explicit: the function
returns the old credentials together with the updated bucket. -/
def Bucket.set_credentials (self : Bucket) (credentials : Credentials) :
    Credentials × Bucket :=
  (self.credentials, { self with credentials := credentials })

/-! ## SHA-256 (FIPS 180-4) and the empty payload digest of src/lib.rs

A reference implementation of SHA-256 over byte lists, with 32-bit words
as Nat reduced modulo two to the 32. -/

/-- Reduce to a 32-bit word. -/
def w32 (n : Nat) : Nat := n % 4294967296

/-- Right rotation of a 32-bit word. -/
def rotr (n x : Nat) : Nat := (x >>> n) ||| w32 (x <<< (32 - n))

/-- The Ch function: (x and y) xor (not x and z) on 32-bit words. -/
def ch (x y z : Nat) : Nat := (x &&& y) ^^^ ((x ^^^ 4294967295) &&& z)

/-- The Maj function. -/
def maj (x y z : Nat) : Nat := (x &&& y) ^^^ (x &&& z) ^^^ (y &&& z)

/-- The big Sigma-0 function. -/
def bsig0 (x : Nat) : Nat := rotr 2 x ^^^ rotr 13 x ^^^ rotr 22 x

/-- The big Sigma-1 function. -/
def bsig1 (x : Nat) : Nat := rotr 6 x ^^^ rotr 11 x ^^^ rotr 25 x

/-- The small sigma-0 function. -/
def ssig0 (x : Nat) : Nat := rotr 7 x ^^^ rotr 18 x ^^^ (x >>> 3)

/-- The small sigma-1 function. -/
def ssig1 (x : Nat) : Nat := rotr 17 x ^^^ rotr 19 x ^^^ (x >>> 10)

/-- Primality by trial division, used to derive the SHA-256 constants. -/
def isPrimeNat (n : Nat) : Bool :=
  2 ≤ n && ((List.range n).drop 2).all (fun d => n % d ≠ 0)

/-- The first k prime numbers. -/
def firstPrimes (k : Nat) : List Nat :=
  ((List.range 400).filter isPrimeNat).take k

/-- Integer square root by descending bit search over the given width. -/
def isqrt (bits n : Nat) : Nat :=
  (List.range bits).foldl
    (fun acc i =>
      let c := acc + (1 <<< (bits - 1 - i))
      if c * c ≤ n then c else acc) 0

/-- Integer cube root by descending bit search over the given width. -/
def icbrt (bits n : Nat) : Nat :=
  (List.range bits).foldl
    (fun acc i =>
      let c := acc + (1 <<< (bits - 1 - i))
      if c * c * c ≤ n then c else acc) 0

/-- The 64 SHA-256 round constants: the first 32 bits of the fractional
parts of the cube roots of the first 64 primes (FIPS 180-4 section
4.2.2). -/
def shaK : List Nat :=
  (firstPrimes 64).map (fun p => icbrt 37 (p <<< 96) % 4294967296)

/-- The initial hash value: the first 32 bits of the fractional parts of
the square roots of the first 8 primes (FIPS 180-4 section 5.3.3). -/
def shaH0 : List Nat :=
  (firstPrimes 8).map (fun p => isqrt 37 (p <<< 64) % 4294967296)

/-- The big-endian byte expansion of a number over a fixed width. -/
def bytesBE : Nat → Nat → List Nat
  | 0, _ => []
  | k + 1, n => bytesBE k (n >>> 8) ++ [n % 256]

/-- SHA-256 padding: append the 0x80 byte, zeros up to 56 modulo 64, and
the 8-byte big-endian bit length. -/
def padMessage (msg : List Nat) : List Nat :=
  let len := msg.length
  let padZeros := (120 - ((len + 1) % 64)) % 64
  msg ++ [0x80] ++ List.replicate padZeros 0 ++ bytesBE 8 (len * 8)

/-- Group bytes as big-endian 32-bit words. -/
def wordsOf : List Nat → List Nat
  | b1 :: b2 :: b3 :: b4 :: rest =>
      (b1 * 16777216 + b2 * 65536 + b3 * 256 + b4) :: wordsOf rest
  | _ => []

/-- Extend the 16-word message schedule by the given number of words. -/
def msgSchedule (w : List Nat) : Nat → List Nat
  | 0 => w
  | n + 1 =>
      msgSchedule
        (w ++ [w32 (ssig1 (w.getD (w.length - 2) 0) + w.getD (w.length - 7) 0 +
                    ssig0 (w.getD (w.length - 15) 0) + w.getD (w.length - 16) 0)]) n

/-- One round of the compression function on the eight working
variables. -/
def compressRound (h : List Nat) (kw : Nat × Nat) : List Nat :=
  match h with
  | [a, b, c, d, e, f, g, hh] =>
      let t1 := w32 (hh + bsig1 e + ch e f g + kw.1 + kw.2)
      let t2 := w32 (bsig0 a + maj a b c)
      [w32 (t1 + t2), a, b, c, w32 (d + t1), e, f, g]
  | _ => h

/-- Compress one 64-byte block into the hash state. -/
def compressBlock (h : List Nat) (block : List Nat) : List Nat :=
  let w := msgSchedule (wordsOf block) 48
  let out := (shaK.zip w).foldl compressRound h
  (h.zip out).map (fun p => w32 (p.1 + p.2))

/-- Split a byte list into 64-byte blocks; fuel equal to the length always
suffices. -/
def toBlocksAux : Nat → List Nat → List (List Nat)
  | 0, _ => []
  | _ + 1, [] => []
  | fuel + 1, l => l.take 64 :: toBlocksAux fuel (l.drop 64)

/-- Split a byte list into 64-byte blocks. -/
def toBlocks (l : List Nat) : List (List Nat) := toBlocksAux l.length l

/-- SHA-256 of a byte list, as eight 32-bit words. -/
def sha256 (msg : List Nat) : List Nat :=
  (toBlocks (padMessage msg)).foldl compressBlock shaH0

/-- A lowercase hexadecimal digit. -/
def hexDigit (n : Nat) : Char :=
  if n < 10 then Char.ofNat (48 + n) else Char.ofNat (87 + n)

/-- The hexadecimal nibbles of a number over a fixed width, most
significant first. -/
def nibbles : Nat → Nat → List Nat
  | 0, _ => []
  | k + 1, n => nibbles k (n >>> 4) ++ [n % 16]

/-- The lowercase hex-encoded SHA-256 digest of a byte list. -/
def sha256Hex (msg : List Nat) : String :=
  String.mk ((((sha256 msg).map (nibbles 8)).flatten).map hexDigit)

/-- The constant EMPTY_PAYLOAD_SHA (src/lib.rs line 89). -/
def EMPTY_PAYLOAD_SHA : String :=
  "e3b0c44298fc1c149afbf4c8996fb92427ae41e4649b934ca495991b7852b855"

/-- Modelled from the spec: the payload digest placed in the canonical
request (request.rs is not under src/).  Spec sections 3 and 4.4: the
hex-encoded SHA-256 digest of the payload, with the fixed well-known
digest constant used for empty payloads. -/
def payloadDigest (body : List Nat) : String :=
  if body = [] then EMPTY_PAYLOAD_SHA else sha256Hex body

/-! ## Machine lemmas -/

/-- A poll in the ParseError state either suspends, staying in ParseError
with the same status, or returns an error outcome; it never yields a
success. -/
theorem pollError_shape (parse : List Nat → Except String AwsError) (status : Nat) :
    ∀ (events : List ChunkEvent) (buffer : List Nat),
      (∃ b e, pollError parse buffer events status =
        (FutState.parseError b e status, PollResult.notReady)) ∨
      (∃ st er, pollError parse buffer events status = (st, PollResult.errR er)) := by
  intro events
  induction events with
  | nil =>
      intro buffer
      right
      cases h : parse buffer with
      | ok info =>
          exact ⟨FutState.doneSt,
            S3Error.awsError info status (fromUtf8Lossy buffer), by simp [pollError, h]⟩
      | error m => exact ⟨FutState.noneSt, S3Error.serdeXml m, by simp [pollError, h]⟩
  | cons ev rest ih =>
      intro buffer
      cases ev with
      | chunk c => simpa [pollError] using ih (buffer ++ c)
      | cnotReady => exact Or.inl ⟨buffer, rest, by simp [pollError]⟩
      | cerr e => exact Or.inr ⟨FutState.noneSt, S3Error.reqwestErr e, by simp [pollError]⟩

/-- Driving the machine from the ParseError state never yields a success
outcome, whatever the fuel and the remaining decoder events. -/
theorem drive_parseError_ne_ready (parse : List Nat → Except String AwsError) :
    ∀ (fuel : Nat) (buffer : List Nat) (events : List ChunkEvent) (status : Nat)
      (r : HttpResponse),
      drive parse (FutState.parseError buffer events status) fuel ≠ PollResult.ready r := by
  intro fuel
  induction fuel with
  | zero => intro buffer events status r; simp [drive]
  | succ n ih =>
      intro buffer events status r
      rcases pollError_shape parse status events buffer with ⟨b, e, h⟩ | ⟨st, er, h⟩ <;>
        simp [drive, poll, h]
      exact ih b e status r

/-- Driving the machine from the ParseError state with clean decoder
events and sufficient fuel accumulates exactly the concatenation of the
chunks onto the buffer and classifies the result of parsing it: a
successful parse yields the service error outcome, a failed parse the XML
parse error outcome. -/
theorem driveError_eq (parse : List Nat → Except String AwsError) (status : Nat) :
    ∀ (events : List ChunkEvent) (buffer : List Nat) (fuel : Nat),
      cleanEvents events = true → countNotReady events < fuel →
      drive parse (FutState.parseError buffer events status) fuel =
        (match parse (buffer ++ chunkData events) with
         | Except.ok info =>
             PollResult.errR
               (S3Error.awsError info status (fromUtf8Lossy (buffer ++ chunkData events)))
         | Except.error m => PollResult.errR (S3Error.serdeXml m)) := by
  intro events
  induction events with
  | nil =>
      intro buffer fuel _ hf
      match fuel, hf with
      | fuel + 1, _ =>
        cases h : parse buffer with
        | ok info => simp [drive, poll, pollError, chunkData, h]
        | error m => simp [drive, poll, pollError, chunkData, h]
  | cons ev rest ih =>
      intro buffer fuel hclean hf
      cases ev with
      | chunk c =>
          match fuel, hf with
          | fuel + 1, hf =>
            have step :
                drive parse
                    (FutState.parseError buffer (ChunkEvent.chunk c :: rest) status)
                    (fuel + 1) =
                  drive parse (FutState.parseError (buffer ++ c) rest status) (fuel + 1) := by
              simp [drive, poll, pollError]
            rw [step,
              ih (buffer ++ c) (fuel + 1) (by simpa [cleanEvents] using hclean)
                (by simpa [countNotReady] using hf)]
            simp [chunkData, List.append_assoc]
      | cnotReady =>
          match fuel, hf with
          | fuel + 1, hf =>
            have step :
                drive parse
                    (FutState.parseError buffer (ChunkEvent.cnotReady :: rest) status)
                    (fuel + 1) =
                  drive parse (FutState.parseError buffer rest status) fuel := by
              simp [drive, poll, pollError]
            rw [step,
              ih buffer fuel (by simpa [cleanEvents] using hclean)
                (by simp [countNotReady] at hf; omega)]
            simp [chunkData]
      | cerr e => simp [cleanEvents] at hclean

/-- A first poll on a freshly sent request whose response has status at
least 300 behaves as a poll in the ParseError state with an empty buffer
and the response body decoder, and so does every subsequent poll. -/
theorem drive_pending_to_parseError (parse : List Nat → Except String AwsError)
    (status : Nat) (events : List ChunkEvent) (fuel : Nat)
    (h : 300 ≤ status) (hfuel : 0 < fuel) :
    drive parse (FutState.pending 0 (Except.ok ⟨status, events⟩)) fuel =
      drive parse (FutState.parseError [] events status) fuel := by
  match fuel, hfuel with
  | fuel + 1, _ => simp [drive, poll, pollError, Nat.not_lt.mpr h]

/-- A served page chain is never empty. -/
theorem Chain.ne_nil {server : Option String → Except S3Error (ListBucketResult × Nat)}
    {r : ListBucketResult × Nat} {pages : List (ListBucketResult × Nat)}
    (h : Chain server r pages) : pages ≠ [] := by
  cases h <;> simp

/-- The loop of Bucket::list follows a served page chain exactly: it
collects the pages in order and reissues each follow-up request with the
continuation token of the page just received. -/
theorem listLoop_chain (server : Option String → Except S3Error (ListBucketResult × Nat)) :
    ∀ (pages : List (ListBucketResult × Nat)) (first : ListBucketResult × Nat) (fuel : Nat),
      Chain server first pages → pages.length ≤ fuel →
      listLoop server first fuel =
        some (Except.ok (pages,
          pages.dropLast.map (fun p => p.1.next_continuation_token))) := by
  intro pages first fuel hc
  induction hc generalizing fuel with
  | last r h =>
      intro hf
      match fuel, hf with
      | fuel + 1, _ => simp [listLoop, h]
  | step r t r2 rest h hs hc ih =>
      intro hf
      match fuel, hf with
      | fuel + 1, hf =>
        have hr : rest.length ≤ fuel := by simpa using hf
        have hne : rest ≠ [] := hc.ne_nil
        simp [listLoop, h, hs, ih fuel hr, List.dropLast_cons_of_ne_nil hne, Except.map, h]

/-! ## Concrete instances used by the closed witness and counterexample
theorems -/

/-- A model XML parser for the error schema that accepts every body. -/
def okParser : List Nat → Except String AwsError :=
  fun _ => Except.ok ⟨"NoSuchKey", "The specified key does not exist."⟩

/-- A model XML parser for the error schema that rejects every body with
the same message. -/
def failParser : List Nat → Except String AwsError :=
  fun _ => Except.error "syntax error"

/-- A model XML parser for list pages that accepts every body. -/
def okListParser : String → Except String ListBucketResult :=
  fun _ => Except.ok ⟨none, []⟩

/-- The first page of the two-page listing of the spec scenario: it
carries the continuation token abc. -/
def pageOne : ListBucketResult × Nat := (⟨some "abc", ["key1"]⟩, 200)

/-- The second page of the two-page listing of the spec scenario: it omits
the continuation token. -/
def pageTwo : ListBucketResult × Nat := (⟨none, ["key2"]⟩, 200)

/-- A server oracle for the two-page listing of the spec scenario. -/
def serverW : Option String → Except S3Error (ListBucketResult × Nat)
  | none => Except.ok pageOne
  | some t =>
      if t = "abc" then Except.ok pageTwo else Except.error (S3Error.reqwestErr "unknown token")

/-- A concrete environment with both keys and a session token set. -/
def envW : EnvMap := ⟨some "EnvAccessKey", some "EnvSecretKey", some "EnvToken"⟩

/-- A concrete filesystem with no loadable profile file. -/
def fsW : ProfileFs := ⟨none, Except.error "file not found"⟩

/-! ## Claims -/

/-- C1: for every received HTTP response, whatever the command verb, the
execution pipeline classifies by the status code alone: every status
strictly below 300 yields the success outcome carrying the response body,
and every status of 300 or above is routed to error-body parsing, and no
amount of further polling ever yields a success outcome. -/
theorem c1_status_threshold (cmd : Command) (parse : List Nat → Except String AwsError)
    (resp : HttpResponse) :
    (resp.status < 300 →
      poll parse (execute_async cmd ⟨0, Except.ok resp⟩) =
        (FutState.doneSt, PollResult.ready resp)) ∧
    (300 ≤ resp.status →
      poll parse (execute_async cmd ⟨0, Except.ok resp⟩) =
        pollError parse [] resp.body resp.status ∧
      ∀ fuel r, drive parse (execute_async cmd ⟨0, Except.ok resp⟩) fuel ≠
        PollResult.ready r) := by
  constructor
  · intro h
    simp [execute_async, poll, h]
  · intro h
    refine ⟨by simp [execute_async, poll, Nat.not_lt.mpr h], ?_⟩
    intro fuel r
    cases fuel with
    | zero => simp [drive]
    | succ n =>
        rcases pollError_shape parse resp.status resp.body [] with ⟨b, e, hp⟩ | ⟨st, er, hp⟩ <;>
          simp [drive, execute_async, poll, Nat.not_lt.mpr h, hp]
        exact drive_parseError_ne_ready parse n b e resp.status r

/-- C1 witness: at status 200 the first poll yields the success outcome;
at status 404 the first poll is routed to error-body parsing and polling
never yields a success. -/
theorem c1_status_threshold_witness :
    (poll okParser (execute_async Command.get ⟨0, Except.ok ⟨200, []⟩⟩) =
      (FutState.doneSt, PollResult.ready ⟨200, []⟩)) ∧
    (poll okParser (execute_async Command.delete ⟨0, Except.ok ⟨404, []⟩⟩) =
      pollError okParser [] [] 404) ∧
    drive okParser (execute_async Command.delete ⟨0, Except.ok ⟨404, []⟩⟩) 3 ≠
      PollResult.ready ⟨404, []⟩ :=
  ⟨(c1_status_threshold Command.get okParser ⟨200, []⟩).1 (by decide),
   ((c1_status_threshold Command.delete okParser ⟨404, []⟩).2 (by decide)).1,
   ((c1_status_threshold Command.delete okParser ⟨404, []⟩).2 (by decide)).2 3 ⟨404, []⟩⟩

/-- C2: for a response with status at least 300 and a decoder that
delivers its chunks without transport error, the final outcome of the
suspension machine is a function of the concatenation of the delivered
chunks alone, and it is exactly the error outcome of the blocking-mode
classification of that byte stream; in particular any two chunk splittings
of the same bytes yield the same outcome. -/
theorem c2_streaming_equivalence (parse : List Nat → Except String AwsError)
    (status : Nat) (events : List ChunkEvent) (fuel : Nat)
    (hclean : cleanEvents events = true) (hfuel : countNotReady events < fuel)
    (hstatus : 300 ≤ status) :
    (∃ e, blockingClassify parse status (chunkData events) = Except.error e) ∧
    (∀ e, blockingClassify parse status (chunkData events) = Except.error e ↔
      drive parse (FutState.pending 0 (Except.ok ⟨status, events⟩)) fuel =
        PollResult.errR e) := by
  have hdrive := drive_pending_to_parseError parse status events fuel hstatus
    (Nat.lt_of_le_of_lt (Nat.zero_le _) hfuel)
  have heq := driveError_eq parse status events [] fuel hclean hfuel
  rw [List.nil_append] at heq
  rw [hdrive, heq]
  cases hp : parse (chunkData events) with
  | ok info =>
      refine ⟨⟨S3Error.awsError info status (fromUtf8Lossy (chunkData events)), ?_⟩, ?_⟩
      · simp [blockingClassify, Nat.not_lt.mpr hstatus, hp]
      · intro e
        simp [blockingClassify, Nat.not_lt.mpr hstatus, hp]
  | error m =>
      refine ⟨⟨S3Error.serdeXml m, ?_⟩, ?_⟩
      · simp [blockingClassify, Nat.not_lt.mpr hstatus, hp]
      · intro e
        simp [blockingClassify, Nat.not_lt.mpr hstatus, hp]

/-- C2 witness: the body 3c 45 delivered as one chunk, as two chunks, and
as two chunks separated by a suspension all yield the service error
outcome the blocking mode produces for 3c 45 at status 404. -/
theorem c2_streaming_equivalence_witness :
    blockingClassify okParser 404 [0x3c, 0x45] =
      Except.error (S3Error.awsError ⟨"NoSuchKey", "The specified key does not exist."⟩ 404
        (fromUtf8Lossy [0x3c, 0x45])) ∧
    drive okParser
        (FutState.pending 0 (Except.ok ⟨404, [ChunkEvent.chunk [0x3c, 0x45]]⟩)) 2 =
      PollResult.errR (S3Error.awsError ⟨"NoSuchKey", "The specified key does not exist."⟩ 404
        (fromUtf8Lossy [0x3c, 0x45])) ∧
    drive okParser
        (FutState.pending 0
          (Except.ok ⟨404, [ChunkEvent.chunk [0x3c], ChunkEvent.cnotReady,
            ChunkEvent.chunk [0x45]]⟩)) 3 =
      PollResult.errR (S3Error.awsError ⟨"NoSuchKey", "The specified key does not exist."⟩ 404
        (fromUtf8Lossy [0x3c, 0x45])) := by
  have h1 := c2_streaming_equivalence okParser 404 [ChunkEvent.chunk [0x3c, 0x45]] 2
    (by decide) (by decide) (by decide)
  have h2 := c2_streaming_equivalence okParser 404
    [ChunkEvent.chunk [0x3c], ChunkEvent.cnotReady, ChunkEvent.chunk [0x45]] 3
    (by decide) (by decide) (by decide)
  have hb : blockingClassify okParser 404 [0x3c, 0x45] =
      Except.error (S3Error.awsError ⟨"NoSuchKey", "The specified key does not exist."⟩ 404
        (fromUtf8Lossy [0x3c, 0x45])) := by
    simp [blockingClassify, okParser]
  refine ⟨hb, ?_, ?_⟩
  · exact (h1.2 _).mp (by simpa [chunkData] using hb)
  · exact (h2.2 _).mp (by simpa [chunkData] using hb)

/-- C4: polling the machine again after it has reached the Done state
panics, and so does every later poll; it never yields a success, an error
outcome or a suspension. -/
theorem c4_poll_after_done_panics (parse : List Nat → Except String AwsError) :
    poll parse FutState.doneSt =
      (FutState.noneSt, PollResult.panicked "S3ResponseFuture used after Ready") ∧
    (∀ resp, (poll parse FutState.doneSt).2 ≠ PollResult.ready resp) ∧
    (∀ e, (poll parse FutState.doneSt).2 ≠ PollResult.errR e) ∧
    (poll parse FutState.doneSt).2 ≠ PollResult.notReady ∧
    poll parse FutState.noneSt =
      (FutState.noneSt, PollResult.panicked "S3ResponseFuture is None") := by
  simp [poll]

/-- C4 witness: a concrete poll after Done panics with the
used-after-Ready message. -/
theorem c4_poll_after_done_panics_witness :
    poll okParser FutState.doneSt =
      (FutState.noneSt, PollResult.panicked "S3ResponseFuture used after Ready") :=
  (c4_poll_after_done_panics okParser).1

/-- C3: when the server serves a page sequence in which every page before
the last carries a continuation token and the last omits it, Bucket::list
returns exactly those pages in order, issues the first request with no
token and each follow-up request with exactly the token carried by the
page just received, and the loop terminates exactly when a page omits the
token. -/
theorem c3_pagination (server : Option String → Except S3Error (ListBucketResult × Nat))
    (p0 : ListBucketResult × Nat) (pages : List (ListBucketResult × Nat)) (fuel : Nat)
    (h0 : server none = Except.ok p0) (hc : Chain server p0 pages)
    (hf : pages.length ≤ fuel) :
    list server fuel =
      some (Except.ok (pages,
        none :: pages.dropLast.map (fun p => p.1.next_continuation_token))) := by
  simp [list, h0, listLoop_chain server pages p0 fuel hc hf, Except.map]

/-- C3 witness: the two-page scenario of the spec, first page with token
abc and second page without, yields both pages in order with the request
trace no-token then token abc. -/
theorem c3_pagination_witness :
    list serverW 2 = some (Except.ok ([pageOne, pageTwo], [none, some "abc"])) :=
  c3_pagination serverW pageOne [pageOne, pageTwo] 2 rfl
    (Chain.step pageOne "abc" pageTwo [pageTwo] rfl (by decide) (Chain.last pageTwo rfl))
    (by decide)

/-- C5 counterexample: two machines holding different accumulated error
bodies whose parse fails with the same message return identical outcomes,
so the outcome of a parse failure cannot carry the raw body bytes: the
propagated error holds only the parse error, the buffer is dropped. -/
theorem c5_counterexample :
    poll failParser (FutState.parseError [48] [] 400) =
      (FutState.noneSt, PollResult.errR (S3Error.serdeXml "syntax error")) ∧
    poll failParser (FutState.parseError [49] [] 400) =
      (FutState.noneSt, PollResult.errR (S3Error.serdeXml "syntax error")) ∧
    ([48] : List Nat) ≠ [49] := by
  refine ⟨?_, ?_, by decide⟩ <;> simp [poll, pollError, failParser]

/-- C5 amended: for a response with status at least 300 whose fully
accumulated body fails to parse as the service error schema, the machine
surfaces a distinct XML-parse-failure outcome, never a panic, never a
success and never the service error outcome; the outcome carries the parse
error message but not the raw body bytes. -/
theorem c5_malformed_error_body (parse : List Nat → Except String AwsError)
    (status : Nat) (events : List ChunkEvent) (fuel : Nat) (m : String)
    (hclean : cleanEvents events = true) (hfuel : countNotReady events < fuel)
    (hstatus : 300 ≤ status) (hp : parse (chunkData events) = Except.error m) :
    drive parse (FutState.pending 0 (Except.ok ⟨status, events⟩)) fuel =
      PollResult.errR (S3Error.serdeXml m) ∧
    (∀ msg, PollResult.errR (S3Error.serdeXml m) ≠ PollResult.panicked msg) ∧
    (∀ r, PollResult.errR (S3Error.serdeXml m) ≠ PollResult.ready r) ∧
    (∀ info st b, S3Error.serdeXml m ≠ S3Error.awsError info st b) := by
  have hdrive := drive_pending_to_parseError parse status events fuel hstatus
    (Nat.lt_of_le_of_lt (Nat.zero_le _) hfuel)
  have heq := driveError_eq parse status events [] fuel hclean hfuel
  rw [List.nil_append] at heq
  rw [hdrive, heq, hp]
  simp

/-- C5 amended witness: a body that fails to parse, delivered as one chunk
after a suspension at status 500, surfaces the XML-parse-failure
outcome. -/
theorem c5_malformed_error_body_witness :
    drive failParser
        (FutState.pending 0
          (Except.ok ⟨500, [ChunkEvent.cnotReady, ChunkEvent.chunk [0x78]]⟩)) 3 =
      PollResult.errR (S3Error.serdeXml "syntax error") :=
  (c5_malformed_error_body failParser 500 [ChunkEvent.cnotReady, ChunkEvent.chunk [0x78]] 3
    "syntax error" (by decide) (by decide) (by decide) (by decide)).1

/-- C6 counterexample: decoding a list result never fails with the
EncodingError outcome, whatever the response bytes, the status and the
XML deserializer, because _list repairs the bytes with
String::from_utf8_lossy before deserializing. -/
theorem c6_counterexample :
    ¬ ∃ (bytes : List Nat) (status : Nat)
        (deserializeList : String → Except String ListBucketResult) (e : String),
        listPage (Except.ok (bytes, status)) deserializeList =
          Except.error (S3Error.encodingError e) := by
  rintro ⟨bytes, status, p, e, h⟩
  simp only [listPage] at h
  cases hp : p (fromUtf8Lossy bytes) <;> rw [hp] at h <;> simp at h

/-- C6 amended: a list response body that is not valid UTF-8 is silently
repaired by lossy decoding before XML deserialization rather than being
surfaced as an EncodingError: whenever the deserializer accepts the
repaired text, decoding succeeds, and no decoding ever yields an
EncodingError outcome. -/
theorem c6_lossy_list_decoding (bytes : List Nat) (status : Nat)
    (deserializeList : String → Except String ListBucketResult) (page : ListBucketResult)
    (h : deserializeList (fromUtf8Lossy bytes) = Except.ok page) :
    listPage (Except.ok (bytes, status)) deserializeList = Except.ok (page, status) ∧
    ∀ e, listPage (Except.ok (bytes, status)) deserializeList ≠
      Except.error (S3Error.encodingError e) := by
  refine ⟨by simp [listPage, h], ?_⟩
  intro e
  simp [listPage, h]

/-- C6 amended witness: the single byte ff is not valid UTF-8, yet the
list decoding succeeds after lossy repair. -/
theorem c6_lossy_list_decoding_witness :
    listPage (Except.ok ([0xff], 200)) okListParser =
      Except.ok ((⟨none, []⟩ : ListBucketResult), 200) :=
  (c6_lossy_list_decoding [0xff] 200 okListParser ⟨none, []⟩ rfl).1

set_option maxRecDepth 100000 in
/-- C7: the constant EMPTY_PAYLOAD_SHA equals the lowercase hex-encoded
SHA-256 digest of the empty byte string, so the payload digest placed in
the canonical request for an empty body is the SHA-256 of the empty
payload. -/
theorem c7_empty_payload_sha :
    EMPTY_PAYLOAD_SHA = sha256Hex [] ∧
    ∀ body : List Nat, body = [] → payloadDigest body = sha256Hex body := by
  constructor
  · decide
  · rintro body rfl
    simp only [payloadDigest, if_pos rfl]
    decide

/-- C7 witness: the payload digest of the empty body is the SHA-256 of the
empty byte string. -/
theorem c7_empty_payload_sha_witness : payloadDigest [] = sha256Hex [] :=
  c7_empty_payload_sha.2 [] rfl

/-- C8: when either the access key or the secret key argument is None, all
credential arguments, the token included, are ignored: resolution falls
back to the environment variables, with the session token taken from
AWS_SESSION_TOKEN, then to the profile file, and the constructor panics
when every source fails. -/
theorem c8_credentials_fallback (access_key secret_key token profile : Option String)
    (env : EnvMap) (fs : ProfileFs)
    (h : access_key = none ∨ secret_key = none) :
    Credentials.new access_key secret_key token profile env fs =
      Credentials.new none none none profile env fs ∧
    (∀ a s, env.accessKeyId = some a → env.secretAccessKey = some s →
      Credentials.new access_key secret_key token profile env fs =
        NewResult.ok ⟨a, s, env.sessionToken⟩) ∧
    ((env.accessKeyId = none ∨ env.secretAccessKey = none) →
      (∀ c, from_profile fs profile = Except.ok c →
        Credentials.new access_key secret_key token profile env fs = NewResult.ok c) ∧
      (∀ e, from_profile fs profile = Except.error e →
        ∃ msg, Credentials.new access_key secret_key token profile env fs =
          NewResult.panicked msg)) := by
  have hargs : ∀ r,
      Credentials.new access_key secret_key token profile env fs = r ↔
      Credentials.new none none none profile env fs = r := by
    rcases h with h | h <;> subst h
    · intro r
      cases secret_key <;> cases token <;> simp [Credentials.new]
    · intro r
      cases access_key <;> cases token <;> simp [Credentials.new]
  refine ⟨(hargs _).mpr rfl, ?_, ?_⟩
  · intro a s ha hs
    have henv : from_env env = Except.ok ⟨a, s, env.sessionToken⟩ := by
      cases ht : env.sessionToken <;>
        simp [from_env, env_var, ha, hs, ht, Bind.bind, Except.bind, pure, Except.pure]
    rw [hargs]
    simp [Credentials.new, henv]
  · intro henvMiss
    have henv : ∃ e, from_env env = Except.error e := by
      rcases henvMiss with hm | hm
      · exact ⟨"environment variable not found", by
          simp [from_env, env_var, hm, Bind.bind, Except.bind]⟩
      · cases ha : env.accessKeyId with
        | none => exact ⟨"environment variable not found", by
            simp [from_env, env_var, ha, Bind.bind, Except.bind]⟩
        | some a => exact ⟨"environment variable not found", by
            simp [from_env, env_var, ha, hm, Bind.bind, Except.bind]⟩
    obtain ⟨e0, henv⟩ := henv
    constructor
    · intro c hp
      rw [hargs]
      simp [Credentials.new, henv, hp]
    · intro e hp
      exact ⟨"No credentials provided as arguments, in the environment or in the profile file. \n "
          ++ e,
        (hargs _).mpr (by simp [Credentials.new, henv, hp])⟩

/-- C8 witness: with a Some access key but a None secret key, the supplied
key and token arguments are ignored and the environment credentials,
session token included, are returned. -/
theorem c8_credentials_fallback_witness :
    Credentials.new (some "ArgAccessKey") none (some "ArgToken") none envW fsW =
      NewResult.ok ⟨"EnvAccessKey", "EnvSecretKey", some "EnvToken"⟩ :=
  (c8_credentials_fallback (some "ArgAccessKey") none (some "ArgToken") none envW fsW
    (Or.inr rfl)).2.1 "EnvAccessKey" "EnvSecretKey" rfl rfl

/-- C9: set_credentials returns exactly the credentials previously stored
in the bucket, stores the new ones, and leaves the name, region, extra
headers, extra query and client unchanged. -/
theorem c9_set_credentials (b : Bucket) (c : Credentials) :
    (b.set_credentials c).1 = b.credentials ∧
    (b.set_credentials c).2.credentials = c ∧
    (b.set_credentials c).2.name = b.name ∧
    (b.set_credentials c).2.region = b.region ∧
    (b.set_credentials c).2.extra_headers = b.extra_headers ∧
    (b.set_credentials c).2.extra_query = b.extra_query ∧
    (b.set_credentials c).2.client = b.client := by
  simp [Bucket.set_credentials]

/-- A concrete bucket for the C9 witness. -/
def bucketW : Bucket :=
  ⟨"rust-s3-test", ⟨"s3.amazonaws.com", "https", "us-east-1"⟩,
   ⟨"OldAccessKey", "OldSecretKey", none⟩, [], [], ⟨false⟩⟩

/-- The replacement credentials for the C9 witness. -/
def credW : Credentials := ⟨"NewAccessKey", "NewSecretKey", some "NewToken"⟩

/-- C9 witness: on a concrete bucket, set_credentials returns the old
credentials and stores the new ones. -/
theorem c9_set_credentials_witness :
    (bucketW.set_credentials credW).1 = bucketW.credentials ∧
    (bucketW.set_credentials credW).2.credentials = credW :=
  ⟨(c9_set_credentials bucketW credW).1, (c9_set_credentials bucketW credW).2.1⟩

/-- C10 counterexample: a successfully parsed service error outcome leaves
the state as Done, not as the internal None placeholder: at status 404
with an empty error body accepted by the parser, the poll returns the
service error and the state Done. -/
theorem c10_counterexample :
    poll okParser (FutState.pending 0 (Except.ok ⟨404, []⟩)) =
      (FutState.doneSt,
       PollResult.errR
         (S3Error.awsError ⟨"NoSuchKey", "The specified key does not exist."⟩ 404
           (fromUtf8Lossy []))) ∧
    FutState.doneSt ≠ FutState.noneSt := by
  refine ⟨?_, by decide⟩
  simp [poll, pollError, okParser]

/-- C10 amended: after a transport error or a parse failure of the error
body the state is left as the internal None placeholder, while after a
successfully parsed service error it is set to Done; in every case each
subsequent poll panics, so the machine never silently resumes after
yielding a terminal outcome. -/
theorem c10_no_resume_after_error (parse : List Nat → Except String AwsError)
    (e : String) (buffer : List Nat) (events : List ChunkEvent) (status : Nat) :
    poll parse (FutState.pending 0 (Except.error e)) =
      (FutState.noneSt, PollResult.errR (S3Error.reqwestErr e)) ∧
    poll parse (FutState.parseError buffer (ChunkEvent.cerr e :: events) status) =
      (FutState.noneSt, PollResult.errR (S3Error.reqwestErr e)) ∧
    (∀ m, parse buffer = Except.error m →
      poll parse (FutState.parseError buffer [] status) =
        (FutState.noneSt, PollResult.errR (S3Error.serdeXml m))) ∧
    (∀ info, parse buffer = Except.ok info →
      poll parse (FutState.parseError buffer [] status) =
        (FutState.doneSt,
         PollResult.errR (S3Error.awsError info status (fromUtf8Lossy buffer)))) ∧
    (∃ m, (poll parse FutState.noneSt).2 = PollResult.panicked m) ∧
    (∃ m, (poll parse FutState.doneSt).2 = PollResult.panicked m) := by
  refine ⟨by simp [poll], by simp [poll, pollError], ?_, ?_, ⟨_, rfl⟩, ⟨_, rfl⟩⟩
  · intro m hm
    simp [poll, pollError, hm]
  · intro info hinfo
    simp [poll, pollError, hinfo]

/-- C10 amended witness: with a parser that rejects the buffer 78, the
parse failure outcome leaves the state at the None placeholder. -/
theorem c10_no_resume_after_error_witness :
    poll failParser (FutState.parseError [0x78] [] 500) =
      (FutState.noneSt, PollResult.errR (S3Error.serdeXml "syntax error")) :=
  (c10_no_resume_after_error failParser "boom" [0x78] [] 500).2.2.1 "syntax error" rfl

end RustS3
